import Mathlib

/-!
Shallow embedding of the news-scraper-automation repository
(src/news_scraper.py, src/github_sync.py, src/scheduler.py).

Python strings are modelled as Lean `String` (a list of characters);
Python string slicing `s[:n]` is modelled over the character list.
External effects are made explicit: the article-extraction library is an
oracle `String → Option ExtractedArticle` (`none` models a raised
exception), the clock readings `int(time.time())` taken by
`save_articles` are explicit `Nat` parameters (one per call site), and
the filesystem/HTTP effects of `save_articles`, `sync_directory` and
`upload_file` are returned as data.
-/

namespace NewsScraperAutomation

/-- Result of a successful `Article(url); download(); parse()` call of the
newspaper library: the fields the scraper reads from the parsed article.
`publish_date` is `none` when the library found no date (Python falsy). -/
structure ExtractedArticle where
  text : String
  authors : List String
  top_image : String
  title : String
  summary : String
  publish_date : Option String
  deriving Repr, DecidableEq

/-- One entry of a parsed RSS feed, as read by `scrape_from_rss`:
`published`/`pubDate`/`summary` model `hasattr` checks on the entry. -/
structure FeedEntry where
  title : String
  link : String
  published : Option String
  pubDate : Option String
  summary : Option String
  deriving Repr, DecidableEq

/-- One entry of a Google News result list, as read by
`scrape_from_google_news`; `source` is `entry.source.title` when the
entry has a `source` attribute. -/
structure SearchEntry where
  title : String
  link : String
  published : String
  summary : String
  source : Option String
  deriving Repr, DecidableEq

/-- The article dictionary assembled by the scraper methods. -/
structure ArticleRecord where
  title : String
  link : String
  published : String
  summary : String
  source : String
  text : String
  authors : List String
  top_image : String
  deriving Repr, DecidableEq

/-- The `published` value of an RSS article before newspaper enrichment:
`entry.published` if present, else `entry.pubDate`, else the current
time (news_scraper.py lines 112-117). -/
def rssPublished (now : String) (e : FeedEntry) : String :=
  match e.published with
  | some p => p
  | none =>
    match e.pubDate with
    | some p => p
    | none => now

/-- The `summary` value of an RSS article: `entry.summary` if present,
else the empty string (news_scraper.py lines 120-123). -/
def rssSummary (e : FeedEntry) : String :=
  match e.summary with
  | some s => s
  | none => ""

/-- The article record built for one RSS entry (news_scraper.py lines
107-147): feed-derived fields, then newspaper enrichment; on extraction
failure `text`/`authors`/`top_image` degrade to empty. -/
def mkRssArticle (source_name now : String)
    (extract : String → Option ExtractedArticle) (e : FeedEntry) :
    ArticleRecord :=
  let published0 := rssPublished now e
  let summary0 := rssSummary e
  match extract e.link with
  | some na =>
    { title := e.title, link := e.link
      published :=
        match na.publish_date with
        | some d => d
        | none => published0
      summary := summary0, source := source_name
      text := na.text, authors := na.authors, top_image := na.top_image }
  | none =>
    { title := e.title, link := e.link, published := published0
      summary := summary0, source := source_name
      text := "", authors := [], top_image := "" }

/-- `scrape_from_rss` (news_scraper.py lines 86-154). `feed` is `none`
when `feedparser.parse` raised (outer try yields the empty list); the
loop `for i, entry in enumerate(feed.entries): if i >= limit: break`
processes the first `limit` entries in feed order. -/
def scrape_from_rss (source_name : String) (feed : Option (List FeedEntry))
    (limit : Nat) (now : String)
    (extract : String → Option ExtractedArticle) : List ArticleRecord :=
  match feed with
  | none => []
  | some entries => (entries.take limit).map (mkRssArticle source_name now extract)

/-- The `source` value of a Google News article: the entry source title
if the entry has one, else the literal `Google News` (line 193). -/
def searchSource (e : SearchEntry) : String :=
  match e.source with
  | some s => s
  | none => "Google News"

/-- The article record built for one Google News entry (news_scraper.py
lines 188-213): same enrichment and degradation as the RSS path. -/
def mkSearchArticle (extract : String → Option ExtractedArticle)
    (e : SearchEntry) : ArticleRecord :=
  let src := searchSource e
  match extract e.link with
  | some na =>
    { title := e.title, link := e.link
      published :=
        match na.publish_date with
        | some d => d
        | none => e.published
      summary := e.summary, source := src
      text := na.text, authors := na.authors, top_image := na.top_image }
  | none =>
    { title := e.title, link := e.link, published := e.published
      summary := e.summary, source := src
      text := "", authors := [], top_image := "" }

/-- `scrape_from_google_news` (news_scraper.py lines 156-222). `results`
is `none` when the search call raised (outer try yields the empty list);
otherwise the first `limit` entries are processed in result order. -/
def scrape_from_google_news (results : Option (List SearchEntry))
    (limit : Nat)
    (extract : String → Option ExtractedArticle) : List ArticleRecord :=
  match results with
  | none => []
  | some entries => (entries.take limit).map (mkSearchArticle extract)

/-- The record built for one url of a direct website crawl
(news_scraper.py lines 245-271): `none` when extraction raised, in which
case the `except` block only logs and nothing is appended. -/
def websiteArticle (url now : String)
    (extract : String → Option ExtractedArticle) (u : String) :
    Option ArticleRecord :=
  match extract u with
  | some na =>
    some { title := na.title, link := u
           published :=
             match na.publish_date with
             | some d => d
             | none => now
           source := url, summary := na.summary
           text := na.text, authors := na.authors
           top_image := na.top_image }
  | none => none

/-- `scrape_from_website` (news_scraper.py lines 224-277). `articleUrls`
is `none` when `newspaper.build` raised; the loop attempts the first
`limit` urls and only successful extractions contribute a record. -/
def scrape_from_website (url now : String)
    (articleUrls : Option (List String)) (limit : Nat)
    (extract : String → Option ExtractedArticle) : List ArticleRecord :=
  match articleUrls with
  | none => []
  | some urls => (urls.take limit).filterMap (websiteArticle url now extract)

/-- Python string slice `s[:n]`, over the character list of `s`. -/
def pySlice (n : Nat) (s : String) : String := String.mk (s.data.take n)

/-- One row of the tabular CSV artifact written by `save_articles`. -/
structure CsvRow where
  title : String
  published : String
  source : String
  link : String
  summary : String
  deriving Repr, DecidableEq

/-- The row built for one article (news_scraper.py lines 308-314); the
`summary` column is `article.get('summary', '')[:100] + '...'` when the
summary is truthy (non-empty) and `''` otherwise. -/
def toCsvRow (a : ArticleRecord) : CsvRow :=
  { title := a.title, published := a.published, source := a.source
    link := a.link
    summary := if a.summary ≠ "" then pySlice 100 a.summary ++ "..." else "" }

/-- Filesystem effect of one `save_articles` call: the directory created
and the two files written, each with its path and content. -/
structure SaveResult where
  madeDir : Option String
  jsonFile : Option (String × List ArticleRecord)
  csvFile : Option (String × List CsvRow)
  deriving Repr, DecidableEq

/-- `save_articles` (news_scraper.py lines 279-322). `today` is the
formatted current date; `t1` is the `int(time.time())` reading at the
JSON filename (line 296) and `t2` the separate reading at the CSV
filename (line 318). An empty batch returns before creating anything. -/
def save_articles (articles : List ArticleRecord) (source_name today : String)
    (t1 t2 : Nat) : SaveResult :=
  if articles.isEmpty then
    { madeDir := none, jsonFile := none, csvFile := none }
  else
    let source_dir := "data" ++ "/" ++ today ++ "/" ++ source_name
    let filename := source_dir ++ "/" ++ source_name ++ "_" ++ toString t1 ++ ".json"
    let df_data := articles.map toCsvRow
    let csv_filename := source_dir ++ "/" ++ source_name ++ "_" ++ toString t2 ++ ".csv"
    { madeDir := some source_dir
      jsonFile := some (filename, articles)
      csvFile := if df_data.isEmpty then none else some (csv_filename, df_data) }

end NewsScraperAutomation

namespace GitHubSync

open NewsScraperAutomation

/-- Python truthiness of an optional environment string: `os.getenv`
returns `None` when unset, and an empty string is falsy too. -/
def truthy (s : Option String) : Bool :=
  match s with
  | none => false
  | some v => v ≠ ""

/-- State of a constructed `GitHubSync` object (github_sync.py
lines 35-50). -/
structure Config where
  token : String
  repo : String
  api_url : String
  deriving Repr, DecidableEq

/-- `GitHubSync.__init__` (github_sync.py lines 35-50): raises
`ValueError` when `GITHUB_TOKEN` or `GITHUB_REPO` is falsy. -/
def init (tok repo : Option String) : Except String Config :=
  if !truthy tok || !truthy repo then
    Except.error "GitHub configuration incomplete"
  else
    Except.ok
      { token := tok.getD "", repo := repo.getD ""
        api_url := "https://api.github.com/repos/" ++ repo.getD "" ++ "/contents" }

/-- `sync_to_github` of scheduler.py (lines 36-46): `true` when the git
commands are attempted, `false` when the missing-configuration guard
returns early. -/
def sync_to_github (tok repo : Option String) : Bool :=
  truthy tok && truthy repo

/-- Outcome of the existence probe `requests.get(api_url/repo_path)` in
`upload_file`: `err` models a raised exception, `resp status sha` a
response whose JSON body carries `sha`. -/
inductive ProbeResult where
  | err : ProbeResult
  | resp : Nat → String → ProbeResult
  deriving Repr, DecidableEq

/-- Body of the create-or-update PUT request assembled by `upload_file`
(github_sync.py lines 79-89): the `sha` key is present only when the
probe found the file. -/
structure PutRequest where
  message : String
  content : String
  sha : Option String
  deriving Repr, DecidableEq

/-- The `sha` recorded by the existence probe (github_sync.py lines
68-77): set only when the probe response has status 200; a raised probe
or any other status leaves the file treated as non-existing. -/
def probeSha (probe : ProbeResult) : Option String :=
  match probe with
  | ProbeResult.err => none
  | ProbeResult.resp status s => if status = 200 then some s else none

/-- `upload_file` (github_sync.py lines 52-103). `localContent` is
`none` when reading the local file raised (outer except returns
`False`); `b64` models base64 encoding, `msg` the timestamped commit
message, `putStatus` the status code of the PUT response. Returns the
request issued (if any) and the boolean result. -/
def upload_file (localContent : Option String) (probe : ProbeResult)
    (putStatus : Nat) (msg : String) (b64 : String → String) :
    Option PutRequest × Bool :=
  match localContent with
  | none => (none, false)
  | some content =>
    let data : PutRequest :=
      { message := msg, content := b64 content, sha := probeSha probe }
    (some data, putStatus == 200 || putStatus == 201)

/-- Single-character replacement `s.replace(chr(92), chr(47))` used on
remote paths, over the character list of `s`. -/
def replaceBackslashes (s : String) : String :=
  String.mk (s.data.map fun c => if c = '\\' then '/' else c)

/-- The remote path computed for one file in `sync_directory`
(github_sync.py lines 129-134): prepend `repo_dir` when it is truthy,
then normalize separators. -/
def mapRepoPath (repo_dir rel_path : String) : String :=
  if repo_dir ≠ "" then replaceBackslashes (repo_dir ++ "/" ++ rel_path)
  else replaceBackslashes rel_path

/-- The file loop of `sync_directory` (github_sync.py lines 121-138):
skip files that are not `.json`/`.csv`, upload the rest, count the
uploads that returned `True`. `upload` is the outcome oracle for
`upload_file`, keyed by the relative path and the computed remote path. -/
def syncLoop (repo_dir : String) (upload : String → String → Bool) :
    List String → Nat → Nat
  | [], acc => acc
  | f :: rest, acc =>
    if !(f.endsWith ".json" || f.endsWith ".csv") then
      syncLoop repo_dir upload rest acc
    else if upload f (mapRepoPath repo_dir f) then
      syncLoop repo_dir upload rest (acc + 1)
    else
      syncLoop repo_dir upload rest acc

/-- `sync_directory` (github_sync.py lines 105-141). `dirExists` models
`os.path.isdir(local_dir)`; `relFiles` the relative paths produced by
the `os.walk` traversal. -/
def sync_directory (dirExists : Bool) (relFiles : List String)
    (repo_dir : String) (upload : String → String → Bool) : Nat :=
  if !dirExists then 0
  else syncLoop repo_dir upload relFiles 0

end GitHubSync

open NewsScraperAutomation GitHubSync

/-! Concrete fixtures used by counterexamples and witnesses. -/

def a0 : ArticleRecord :=
  { title := "Title", link := "http://x/1", published := "2024-01-01"
    summary := "abc", source := "bbc", text := "", authors := []
    top_image := "" }

def ea0 : ExtractedArticle :=
  { text := "body", authors := ["A"], top_image := "img", title := "T"
    summary := "S", publish_date := none }

def fe1 : FeedEntry :=
  { title := "t1", link := "u1", published := some "p1", pubDate := none
    summary := some "s1" }

def fe2 : FeedEntry :=
  { title := "t2", link := "u2", published := none, pubDate := none
    summary := none }

def se1 : SearchEntry :=
  { title := "t1", link := "u1", published := "p1", summary := "s1"
    source := some "CNN" }

def se2 : SearchEntry :=
  { title := "t2", link := "u2", published := "p2", summary := "s2"
    source := none }

/-- Extraction oracle that fails exactly on url `u2`. -/
def exW : String → Option ExtractedArticle :=
  fun l => if l = "u2" then none else some ea0

/-- Extraction oracle that succeeds on every url. -/
def exAll : String → Option ExtractedArticle := fun _ => some ea0

/-! Helper lemmas. -/

lemma replaceBackslashes_idem (s : String) :
    replaceBackslashes (replaceBackslashes s) = replaceBackslashes s := by
  show String.mk _ = String.mk _
  simp only [replaceBackslashes, List.map_map]
  congr 1
  have hf : ((fun c => if c = '\\' then '/' else c) ∘
      (fun c => if c = '\\' then '/' else c)) =
      (fun c : Char => if c = '\\' then '/' else c) := by
    funext c
    by_cases hc : c = '\\' <;> simp [Function.comp, hc]
  rw [hf]

lemma syncLoop_count (rd : String) (up : String → String → Bool)
    (fs : List String) :
    ∀ acc : Nat, syncLoop rd up fs acc =
      acc + (fs.filter fun f =>
        (f.endsWith ".json" || f.endsWith ".csv") &&
          up f (mapRepoPath rd f)).length := by
  induction fs with
  | nil => intro acc; simp [syncLoop]
  | cons f rest ih =>
    intro acc
    cases he : (f.endsWith ".json" || f.endsWith ".csv") with
    | false => simp [syncLoop, he, ih, List.filter_cons]
    | true =>
      cases hu : up f (mapRepoPath rd f) with
      | false => simp [syncLoop, he, hu, ih, List.filter_cons]
      | true =>
        simp [syncLoop, he, hu, ih, List.filter_cons]
        omega

/-- Claim C6: `save_articles` on an empty article list creates no
directory and writes neither the structured JSON file nor the tabular
CSV file; the data directory is untouched. -/
theorem C6_empty_batch_writes_nothing (source_name today : String)
    (t1 t2 : Nat) :
    save_articles [] source_name today t1 t2 =
      { madeDir := none, jsonFile := none, csvFile := none } := rfl

/-- Claim C8: the remote path for a local relative path replaces every
backslash with a forward slash after prepending the repo directory when
one is given; both `a\b\c.json` and `a/b/c.json` map to `a/b/c.json`,
and re-applying the mapping to an already-mapped path changes nothing. -/
theorem C8_remote_path_mapping :
    mapRepoPath "" "a\\b\\c.json" = "a/b/c.json" ∧
    mapRepoPath "" "a/b/c.json" = "a/b/c.json" ∧
    (∀ rd p, mapRepoPath "" (mapRepoPath rd p) = mapRepoPath rd p) ∧
    (∀ rd p, mapRepoPath rd p =
      if rd = "" then replaceBackslashes p
      else replaceBackslashes (rd ++ "/" ++ p)) := by
  refine ⟨by decide, by decide, ?_, ?_⟩
  · intro rd p
    show (if ("" : String) ≠ "" then _ else _) = _
    rw [if_neg (by simp)]
    unfold mapRepoPath
    by_cases h : rd = ""
    · rw [if_neg (by simp [h])]
      exact replaceBackslashes_idem p
    · rw [if_pos h]
      exact replaceBackslashes_idem (rd ++ "/" ++ p)
  · intro rd p
    unfold mapRepoPath
    by_cases h : rd = "" <;> simp [h]

/-- Claim C4: `sync_directory` on an existing directory returns exactly
the number of eligible (`.json`/`.csv`) files whose upload returned
`True`; an individual upload failure never aborts the walk, whatever the
mix of outcomes the upload oracle produces. -/
theorem C4_sync_directory_success_count (relFiles : List String)
    (rd : String) (up : String → String → Bool) :
    sync_directory true relFiles rd up =
      (relFiles.filter fun f =>
        (f.endsWith ".json" || f.endsWith ".csv") &&
          up f (mapRepoPath rd f)).length := by
  show syncLoop rd up relFiles 0 = _
  rw [syncLoop_count rd up relFiles 0]
  omega

/-- Claim C1 counterexample: the article `a0` has the non-empty summary
`abc` of length 3 ≤ 100, yet the tabular row written for it carries
`abc...`, not the unmodified `abc`: short summaries do not pass through
unmodified. -/
theorem C1_counterexample :
    a0.summary = "abc" ∧ a0.summary.length ≤ 100 ∧
    (save_articles [a0] "bbc" "2024-01-01" 0 0).csvFile.map
      (fun p => p.2.map CsvRow.summary) = some ["abc..."] ∧
    ("abc..." : String) ≠ "abc" := by
  refine ⟨rfl, by decide, rfl, by decide⟩

/-- Claim C1 (amended): for a non-empty batch the tabular rows are
written, and each row's summary is empty when the article summary is
empty, and otherwise is the first 100 characters of the article summary
followed by `...` — hence of length at most 103 — even when the input
summary has 100 characters or fewer (short non-empty summaries gain the
marker rather than passing through unmodified). -/
theorem C1_tabular_summary_field (articles : List ArticleRecord)
    (source_name today : String) (t1 t2 : Nat) (h : articles ≠ []) :
    ∃ pr, (save_articles articles source_name today t1 t2).csvFile = some pr ∧
      pr.2 = articles.map toCsvRow ∧
      ∀ a ∈ articles,
        (a.summary = "" → (toCsvRow a).summary = "") ∧
        (a.summary ≠ "" →
          (toCsvRow a).summary = pySlice 100 a.summary ++ "..." ∧
          (toCsvRow a).summary.length ≤ 103) := by
  obtain ⟨a, as, rfl⟩ : ∃ a as, articles = a :: as := by
    cases articles with
    | nil => exact absurd rfl h
    | cons a as => exact ⟨a, as, rfl⟩
  refine ⟨_, rfl, rfl, ?_⟩
  intro x _
  constructor
  · intro hs
    simp [toCsvRow, hs]
  · intro hs
    refine ⟨by simp [toCsvRow, hs], ?_⟩
    show (if x.summary ≠ "" then pySlice 100 x.summary ++ "..." else "").length ≤ 103
    rw [if_pos hs, String.length_append]
    have h1 : (pySlice 100 x.summary).length ≤ 100 := by
      show (x.summary.data.take 100).length ≤ 100
      exact List.length_take_le 100 x.summary.data
    have h2 : ("..." : String).length = 3 := rfl
    omega

/-- Claim C1 witness: the amended statement instantiated on the
one-article batch `[a0]`. -/
theorem C1_tabular_summary_field_witness :
    ∃ pr, (save_articles [a0] "bbc" "2024-01-01" 7 7).csvFile = some pr ∧
      pr.2 = [a0].map toCsvRow ∧
      ∀ a ∈ [a0],
        (a.summary = "" → (toCsvRow a).summary = "") ∧
        (a.summary ≠ "" →
          (toCsvRow a).summary = pySlice 100 a.summary ++ "..." ∧
          (toCsvRow a).summary.length ≤ 103) :=
  C1_tabular_summary_field [a0] "bbc" "2024-01-01" 7 7 (by decide)

/-- Claim C2 counterexample: with the clock advancing by one second
between the JSON filename sample and the CSV filename sample, the two
artifacts of a single `save_articles` call carry different unix
timestamps, so their name stems differ. -/
theorem C2_counterexample :
    (save_articles [a0] "bbc" "2024-01-01" 100 101).jsonFile.map Prod.fst =
      some "data/2024-01-01/bbc/bbc_100.json" ∧
    (save_articles [a0] "bbc" "2024-01-01" 100 101).csvFile.map Prod.fst =
      some "data/2024-01-01/bbc/bbc_101.csv" ∧
    ("bbc_100" : String) ≠ "bbc_101" := by
  refine ⟨by decide, by decide, by decide⟩

/-- Claim C2 (amended): each artifact is named
`data/<today>/<source>/<source>_<t>.<ext>` with `t` the `int(time.time())`
reading taken at that artifact's own write; the two stems coincide
exactly when both readings fall in the same second (`t1 = t2`), and may
differ otherwise. -/
theorem C2_artifact_name_stems (articles : List ArticleRecord)
    (source_name today : String) (t1 t2 : Nat) (h : articles ≠ []) :
    (save_articles articles source_name today t1 t2).jsonFile.map Prod.fst =
      some ("data" ++ "/" ++ today ++ "/" ++ source_name ++ "/" ++
        source_name ++ "_" ++ toString t1 ++ ".json") ∧
    (save_articles articles source_name today t1 t2).csvFile.map Prod.fst =
      some ("data" ++ "/" ++ today ++ "/" ++ source_name ++ "/" ++
        source_name ++ "_" ++ toString t2 ++ ".csv") ∧
    (t1 = t2 →
      source_name ++ "_" ++ toString t1 = source_name ++ "_" ++ toString t2) := by
  obtain ⟨a, as, rfl⟩ : ∃ a as, articles = a :: as := by
    cases articles with
    | nil => exact absurd rfl h
    | cons a as => exact ⟨a, as, rfl⟩
  exact ⟨rfl, rfl, fun ht => by rw [ht]⟩

/-- Claim C2 witness: the amended statement instantiated on `[a0]` with
both clock readings equal to 5. -/
theorem C2_artifact_name_stems_witness :
    (save_articles [a0] "bbc" "2024-01-01" 5 5).jsonFile.map Prod.fst =
      some ("data" ++ "/" ++ "2024-01-01" ++ "/" ++ "bbc" ++ "/" ++
        "bbc" ++ "_" ++ toString 5 ++ ".json") ∧
    (save_articles [a0] "bbc" "2024-01-01" 5 5).csvFile.map Prod.fst =
      some ("data" ++ "/" ++ "2024-01-01" ++ "/" ++ "bbc" ++ "/" ++
        "bbc" ++ "_" ++ toString 5 ++ ".csv") ∧
    (5 = 5 → "bbc" ++ "_" ++ toString 5 = "bbc" ++ "_" ++ toString 5) :=
  C2_artifact_name_stems [a0] "bbc" "2024-01-01" 5 5 (by decide)

/-- Claim C3: in feed and search harvests, an extraction failure on one
article still yields a record for it with empty `text`, `authors` and
`top_image` at its original position, the batch keeps its full length,
and a record depends only on its own entry and on the oracle's answer
for that entry's link, so one article's failure never changes another
article of the batch. -/
theorem C3_degraded_record_and_isolation :
    (∀ (sn now : String) (entries : List FeedEntry) (limit : Nat)
        (ex : String → Option ExtractedArticle) (i : Nat) (e : FeedEntry),
      (entries.take limit)[i]? = some e →
      (scrape_from_rss sn (some entries) limit now ex).length =
          (entries.take limit).length ∧
      (ex e.link = none →
        (scrape_from_rss sn (some entries) limit now ex)[i]? =
          some { title := e.title, link := e.link
                 published := rssPublished now e, summary := rssSummary e
                 source := sn, text := "", authors := [], top_image := "" })) ∧
    (∀ (sn now : String) (entries : List FeedEntry) (limit : Nat)
        (ex1 ex2 : String → Option ExtractedArticle) (i : Nat) (e : FeedEntry),
      (entries.take limit)[i]? = some e →
      ex1 e.link = ex2 e.link →
      (scrape_from_rss sn (some entries) limit now ex1)[i]? =
        (scrape_from_rss sn (some entries) limit now ex2)[i]?) ∧
    (∀ (entries : List SearchEntry) (limit : Nat)
        (ex : String → Option ExtractedArticle) (i : Nat) (e : SearchEntry),
      (entries.take limit)[i]? = some e →
      (scrape_from_google_news (some entries) limit ex).length =
          (entries.take limit).length ∧
      (ex e.link = none →
        (scrape_from_google_news (some entries) limit ex)[i]? =
          some { title := e.title, link := e.link, published := e.published
                 summary := e.summary, source := searchSource e
                 text := "", authors := [], top_image := "" })) ∧
    (∀ (entries : List SearchEntry) (limit : Nat)
        (ex1 ex2 : String → Option ExtractedArticle) (i : Nat) (e : SearchEntry),
      (entries.take limit)[i]? = some e →
      ex1 e.link = ex2 e.link →
      (scrape_from_google_news (some entries) limit ex1)[i]? =
        (scrape_from_google_news (some entries) limit ex2)[i]?) := by
  refine ⟨?_, ?_, ?_, ?_⟩
  · intro sn now entries limit ex i e he
    refine ⟨by simp [scrape_from_rss], fun hfail => ?_⟩
    show ((entries.take limit).map (mkRssArticle sn now ex))[i]? = _
    rw [List.getElem?_map, he]
    simp [mkRssArticle, hfail]
  · intro sn now entries limit ex1 ex2 i e he hagree
    show ((entries.take limit).map (mkRssArticle sn now ex1))[i]? =
      ((entries.take limit).map (mkRssArticle sn now ex2))[i]?
    rw [List.getElem?_map, List.getElem?_map, he]
    simp [mkRssArticle, hagree]
  · intro entries limit ex i e he
    refine ⟨by simp [scrape_from_google_news], fun hfail => ?_⟩
    show ((entries.take limit).map (mkSearchArticle ex))[i]? = _
    rw [List.getElem?_map, he]
    simp [mkSearchArticle, hfail]
  · intro entries limit ex1 ex2 i e he hagree
    show ((entries.take limit).map (mkSearchArticle ex1))[i]? =
      ((entries.take limit).map (mkSearchArticle ex2))[i]?
    rw [List.getElem?_map, List.getElem?_map, he]
    simp [mkSearchArticle, hagree]

/-- Claim C3 witness: a two-entry feed and a two-entry search batch with
the oracle `exW` failing exactly on `u2` (the second entry): the failed
article is present as a degraded record at index 1, the length stays 2,
and the first record is unchanged when the failing oracle is swapped for
an all-succeeding one. -/
theorem C3_degraded_record_and_isolation_witness :
    ((scrape_from_rss "bbc" (some [fe1, fe2]) 10 "NOW" exW).length =
        ([fe1, fe2].take 10).length ∧
      (exW fe2.link = none →
        (scrape_from_rss "bbc" (some [fe1, fe2]) 10 "NOW" exW)[1]? =
          some { title := fe2.title, link := fe2.link
                 published := rssPublished "NOW" fe2, summary := rssSummary fe2
                 source := "bbc", text := "", authors := [], top_image := "" })) ∧
    ((scrape_from_rss "bbc" (some [fe1, fe2]) 10 "NOW" exW)[0]? =
      (scrape_from_rss "bbc" (some [fe1, fe2]) 10 "NOW" exAll)[0]?) ∧
    ((scrape_from_google_news (some [se1, se2]) 10 exW).length =
        ([se1, se2].take 10).length ∧
      (exW se2.link = none →
        (scrape_from_google_news (some [se1, se2]) 10 exW)[1]? =
          some { title := se2.title, link := se2.link, published := se2.published
                 summary := se2.summary, source := searchSource se2
                 text := "", authors := [], top_image := "" })) ∧
    ((scrape_from_google_news (some [se1, se2]) 10 exW)[0]? =
      (scrape_from_google_news (some [se1, se2]) 10 exAll)[0]?) :=
  ⟨C3_degraded_record_and_isolation.1 "bbc" "NOW" [fe1, fe2] 10 exW 1 fe2
      (by decide),
    C3_degraded_record_and_isolation.2.1 "bbc" "NOW" [fe1, fe2] 10 exW exAll 0
      fe1 (by decide) (by decide),
    C3_degraded_record_and_isolation.2.2.1 [se1, se2] 10 exW 1 se2 (by decide),
    C3_degraded_record_and_isolation.2.2.2 [se1, se2] 10 exW exAll 0 se1
      (by decide) (by decide)⟩

/-- Claim C7: an RSS harvest returns `min limit n` records for a feed of
`n` entries, the record at index `i` is built from the feed entry at
index `i` of the truncated feed (head of the feed, original order), and
with 15 entries and limit 10 the batch has exactly 10 records. -/
theorem C7_rss_limit_and_order (sn now : String) (entries : List FeedEntry)
    (limit : Nat) (ex : String → Option ExtractedArticle) :
    (scrape_from_rss sn (some entries) limit now ex).length =
        min limit entries.length ∧
    (∀ (i : Nat) (e : FeedEntry), (entries.take limit)[i]? = some e →
      (scrape_from_rss sn (some entries) limit now ex)[i]? =
        some (mkRssArticle sn now ex e)) ∧
    (entries.length = 15 → limit = 10 →
      (scrape_from_rss sn (some entries) limit now ex).length = 10) := by
  refine ⟨?_, ?_, ?_⟩
  · show ((entries.take limit).map (mkRssArticle sn now ex)).length = _
    rw [List.length_map, List.length_take]
  · intro i e he
    show ((entries.take limit).map (mkRssArticle sn now ex))[i]? =
      some (mkRssArticle sn now ex e)
    rw [List.getElem?_map, he]
    rfl
  · intro hlen hlim
    show ((entries.take limit).map (mkRssArticle sn now ex)).length = 10
    rw [List.length_map, List.length_take, hlen, hlim]
    omega

/-- Claim C7 witness: a 15-entry feed with limit 10 yields exactly 10
records and the head record is built from the head entry. -/
theorem C7_rss_limit_and_order_witness :
    (scrape_from_rss "bbc" (some (List.replicate 15 fe1)) 10 "NOW" exAll).length =
        min 10 (List.replicate 15 fe1).length ∧
    ((List.replicate 15 fe1).take 10)[0]? = some fe1 ∧
    (scrape_from_rss "bbc" (some (List.replicate 15 fe1)) 10 "NOW" exAll)[0]? =
        some (mkRssArticle "bbc" "NOW" exAll fe1) ∧
    (scrape_from_rss "bbc" (some (List.replicate 15 fe1)) 10 "NOW" exAll).length =
        10 := by
  have h := C7_rss_limit_and_order "bbc" "NOW" (List.replicate 15 fe1) 10 exAll
  exact ⟨h.1, by decide, h.2.1 0 fe1 (by decide), h.2.2 (by decide) rfl⟩

/-- Claim C5: with the local file readable, the PUT request carries no
`sha` whenever the probe did not come back with status 200 (absent path
or raised probe), carries exactly the probed `sha` on a 200 probe, and
the call returns `True` precisely when the PUT status is 200 or 201 —
so a create succeeds on 201, an update succeeds on 200, and every other
status yields `False`. -/
theorem C5_upload_file_sha_and_status (content msg : String)
    (b64 : String → String) (st : Nat) :
    (∀ probe : ProbeResult, (∀ s, probe ≠ ProbeResult.resp 200 s) →
      ∃ req, (upload_file (some content) probe st msg b64).1 = some req ∧
        req.sha = none) ∧
    (∀ s, ∃ req,
      (upload_file (some content) (ProbeResult.resp 200 s) st msg b64).1 =
        some req ∧ req.sha = some s) ∧
    (∀ probe, ((upload_file (some content) probe st msg b64).2 = true ↔
      (st = 200 ∨ st = 201))) := by
  refine ⟨?_, ?_, ?_⟩
  · intro probe hne
    refine ⟨_, rfl, ?_⟩
    show probeSha probe = none
    cases probe with
    | err => rfl
    | resp n s =>
      by_cases hn : n = 200
      · subst hn
        exact absurd rfl (hne s)
      · simp [probeSha, hn]
  · intro s
    exact ⟨_, rfl, rfl⟩
  · intro probe
    show (st == 200 || st == 201) = true ↔ _
    simp

/-- Claim C5 witness: a create (probe raised, PUT 201) issues a request
without `sha` and succeeds; an update (probe 200 with `sha1`, PUT 200)
issues a request carrying `sha1`; and PUT status 404 yields `False`. -/
theorem C5_upload_file_sha_and_status_witness :
    (∀ s, ProbeResult.err ≠ ProbeResult.resp 200 s) ∧
    (∃ req, (upload_file (some "c") ProbeResult.err 201 "m" id).1 =
      some req ∧ req.sha = none) ∧
    ((upload_file (some "c") ProbeResult.err 201 "m" id).2 = true ↔
      ((201 : Nat) = 200 ∨ (201 : Nat) = 201)) ∧
    (∃ req,
      (upload_file (some "c") (ProbeResult.resp 200 "sha1") 200 "m" id).1 =
        some req ∧ req.sha = some "sha1") ∧
    ((upload_file (some "c") (ProbeResult.resp 200 "sha1") 200 "m" id).2 = true ↔
      ((200 : Nat) = 200 ∨ (200 : Nat) = 201)) ∧
    ((upload_file (some "c") (ProbeResult.resp 200 "sha1") 404 "m" id).2 = true ↔
      ((404 : Nat) = 200 ∨ (404 : Nat) = 201)) :=
  ⟨fun _ h => ProbeResult.noConfusion h,
    (C5_upload_file_sha_and_status "c" "m" id 201).1 ProbeResult.err
      (fun _ h => ProbeResult.noConfusion h),
    (C5_upload_file_sha_and_status "c" "m" id 201).2.2 ProbeResult.err,
    (C5_upload_file_sha_and_status "c" "m" id 200).2.1 "sha1",
    (C5_upload_file_sha_and_status "c" "m" id 200).2.2
      (ProbeResult.resp 200 "sha1"),
    (C5_upload_file_sha_and_status "c" "m" id 404).2.2
      (ProbeResult.resp 200 "sha1")⟩

/-- Claim C9: when the GitHub token or the repository identifier is
missing from the environment, constructing the sync component raises
(`init` returns an error) and the scheduler's sync step does not
proceed to any git command. -/
theorem C9_missing_config_fatal (tok repo : Option String)
    (h : tok = none ∨ repo = none) :
    (∃ e, GitHubSync.init tok repo = Except.error e) ∧
    sync_to_github tok repo = false := by
  rcases h with h | h
  · subst h
    exact ⟨⟨_, rfl⟩, rfl⟩
  · subst h
    have h1 : GitHubSync.init tok none =
        Except.error "GitHub configuration incomplete" := by
      simp [GitHubSync.init, truthy]
    have h2 : sync_to_github tok none = false := by
      simp [sync_to_github, truthy]
    exact ⟨⟨_, h1⟩, h2⟩

/-- Claim C9 witness: with `GITHUB_TOKEN` unset and `GITHUB_REPO` set,
construction errs and the scheduler sync is skipped. -/
theorem C9_missing_config_fatal_witness :
    ((none : Option String) = none ∨ (some "owner/repo" : Option String) = none) ∧
    (∃ e, GitHubSync.init none (some "owner/repo") = Except.error e) ∧
    sync_to_github none (some "owner/repo") = false :=
  ⟨Or.inl rfl,
    C9_missing_config_fatal none (some "owner/repo") (Or.inl rfl)⟩

lemma website_links_filter (url now : String)
    (ex : String → Option ExtractedArticle) (l : List String) :
    (l.filterMap (websiteArticle url now ex)).map (fun r => r.link) =
      l.filter (fun u => (ex u).isSome) := by
  induction l with
  | nil => rfl
  | cons u rest ih =>
    cases hu : ex u with
    | none =>
      simp [List.filterMap_cons, websiteArticle, hu, ih, List.filter_cons]
    | some na =>
      simp [List.filterMap_cons, websiteArticle, hu, ih, List.filter_cons]

/-- Claim C10: in direct-website crawl mode a failed extraction is
omitted from the batch entirely — every returned record stems from a
successful extraction (no degraded empty-field records) — while the
successfully extracted urls among the first `limit` attempted all
survive, in order. -/
theorem C10_website_failure_omission (url now : String) (urls : List String)
    (limit : Nat) (ex : String → Option ExtractedArticle) :
    (∀ r ∈ scrape_from_website url now (some urls) limit ex,
      ∃ na, ex r.link = some na ∧ r.text = na.text ∧
        r.authors = na.authors ∧ r.top_image = na.top_image) ∧
    ((scrape_from_website url now (some urls) limit ex).map (fun r => r.link) =
      (urls.take limit).filter (fun u => (ex u).isSome)) ∧
    ((scrape_from_website url now (some urls) limit ex).length =
      ((urls.take limit).filter (fun u => (ex u).isSome)).length) := by
  have hmap := website_links_filter url now ex (urls.take limit)
  refine ⟨?_, hmap, ?_⟩
  · intro r hr
    have hr' : r ∈ (urls.take limit).filterMap (websiteArticle url now ex) := hr
    rw [List.mem_filterMap] at hr'
    obtain ⟨u, _, hwa⟩ := hr'
    cases hex : ex u with
    | none =>
      unfold websiteArticle at hwa
      rw [hex] at hwa
      cases hwa
    | some na =>
      unfold websiteArticle at hwa
      rw [hex] at hwa
      injection hwa with hrec
      subst hrec
      exact ⟨na, hex, rfl, rfl, rfl⟩
  · rw [← hmap, List.length_map]
    rfl

/-- Record produced for url `u1` by the oracle `exW` in a crawl of site
`W` at time `NOW`. -/
def r0 : ArticleRecord :=
  { title := "T", link := "u1", published := "NOW", summary := "S"
    source := "W", text := "body", authors := ["A"], top_image := "img" }

/-- Claim C10 witness: crawling three urls where `u2` fails yields the
records of `u1` and `u3` only, and the `u1` record `r0` is in the batch
with its fields taken from the successful extraction. -/
theorem C10_website_failure_omission_witness :
    ((scrape_from_website "W" "NOW" (some ["u1", "u2", "u3"]) 5 exW).map
        (fun r => r.link) =
      (["u1", "u2", "u3"].take 5).filter (fun u => (exW u).isSome)) ∧
    r0 ∈ scrape_from_website "W" "NOW" (some ["u1", "u2", "u3"]) 5 exW ∧
    (∃ na, exW r0.link = some na ∧ r0.text = na.text ∧
      r0.authors = na.authors ∧ r0.top_image = na.top_image) := by
  have h := C10_website_failure_omission "W" "NOW" ["u1", "u2", "u3"] 5 exW
  have hmem : r0 ∈ scrape_from_website "W" "NOW" (some ["u1", "u2", "u3"]) 5 exW := by
    decide
  exact ⟨h.2.1, hmem, h.1 r0 hmem⟩
